import Mathlib

/-!
Verification of the nsc trust-chain and permission engine against its
specification.  The Go sources are embedded shallowly: maps become
association lists, epoch seconds and durations become `Int`, effectful
sub-operations whose code lives in external packages become explicit
outcome parameters, and fallible code returns `Except`.
-/

namespace Nsc

/-! ## RevocationList -/

/-- The wildcard revocation target, `jwt.All`. -/
def wildcard : String := "*"

/-- Modelled from the spec: a `RevocationList` is a mapping from a target
public key (or the wildcard) to a cutoff in epoch seconds, one entry per
ever-revoked target.  Embedded as an association list with at most one
entry per key. -/
def RevocationList : Type := List (String × Int)

/-- Lookup of the cutoff stored for a target, if any. -/
def RevocationList.lookup : RevocationList → String → Option Int
  | [], _ => none
  | e :: rest, t => if e.1 = t then some e.2 else RevocationList.lookup rest t

/-- Modelled from the spec: `Revoke(target, at)` sets
`revocations[target] = at.Unix()`, overwriting any previous entry for that
target (map-update semantics). -/
def RevocationList.revoke : RevocationList → String → Int → RevocationList
  | [], target, cutoff => [(target, cutoff)]
  | e :: rest, target, cutoff =>
    if e.1 = target then (target, cutoff) :: rest
    else e :: RevocationList.revoke rest target cutoff

/-- Modelled from the spec: `IsRevokedAt(target, issuedAt)` is true iff an
entry exists for `target` or for the wildcard whose cutoff is at or after
`issuedAt.Unix()`; when both exist the check is an OR across both. -/
def RevocationList.isRevokedAt (rl : RevocationList) (target : String) (t : Int) : Bool :=
  (match rl.lookup target with
    | some c => decide (t ≤ c)
    | none => false)
  || (match rl.lookup wildcard with
    | some c => decide (t ≤ c)
    | none => false)

theorem RevocationList.lookup_revoke_self (rl : RevocationList) (target : String) (cutoff : Int) :
    (rl.revoke target cutoff).lookup target = some cutoff := by
  induction rl with
  | nil => simp [revoke, lookup]
  | cons e rest ih =>
    by_cases h : e.1 = target
    · simp [revoke, lookup, h]
    · simp [revoke, lookup, h, ih]

theorem RevocationList.lookup_revoke_other (rl : RevocationList) (target k : String)
    (cutoff : Int) (hk : k ≠ target) :
    (rl.revoke target cutoff).lookup k = rl.lookup k := by
  induction rl with
  | nil => simp [revoke, lookup, Ne.symm hk]
  | cons e rest ih =>
    by_cases h : e.1 = target
    · simp [revoke, lookup, h, Ne.symm hk]
    · simp [revoke, lookup, h, ih]

/-! ## Exports and the revoke-activation command -/

/-- Export kind, `jwt.Stream` or `jwt.Service`. -/
inductive ExportKind where
  | stream
  | service
  deriving DecidableEq

instance : DecidableEq RevocationList :=
  inferInstanceAs (DecidableEq (List (String × Int)))

/-- An export owned by an account claim: subject pattern, kind, whether an
activation token is required, and its revocation list. -/
structure Export where
  subject : String
  kind : ExportKind
  tokenReq : Bool
  revocations : RevocationList
  deriving DecidableEq

/-- An account claim, reduced to its name and exports. -/
structure Account where
  name : String
  exports : List Export
  deriving DecidableEq

/-- Modelled from the spec: the revoke-activation command edits the one
export of the selected account identified by subject and kind; on that
export it calls `Revoke(target, cutoff)`. -/
def Export.revokeIfMatch (subject : String) (kind : ExportKind) (target : String)
    (cutoff : Int) (e : Export) : Export :=
  if e.subject = subject ∧ e.kind = kind then
    { e with revocations := e.revocations.revoke target cutoff }
  else e

/-- Modelled from the spec: apply the revoke-activation edit to the account
selected by name, leaving every other account untouched. -/
def Account.revokeActivation (acctName subject : String) (kind : ExportKind)
    (target : String) (cutoff : Int) (a : Account) : Account :=
  if a.name = acctName then
    { a with exports := a.exports.map (Export.revokeIfMatch subject kind target cutoff) }
  else a

/-- Modelled from the spec: the whole store after a revoke-activation
command, account by account. -/
def revokeActivationOn (accounts : List Account) (acctName subject : String)
    (kind : ExportKind) (target : String) (cutoff : Int) : List Account :=
  accounts.map (Account.revokeActivation acctName subject kind target cutoff)

/-! ## PermissionSet: string lists, sorting, user claims -/

/-- Modelled from the spec: `jwt.StringList.Add` appends each pattern that
is not already present; re-adding an existing pattern is a no-op. -/
def StringList.add (l : List String) (ps : List String) : List String :=
  ps.foldl (fun acc v => if v ∈ acc then acc else acc ++ [v]) l

/-- `sort.Strings`: sort a string slice ascending.  Any comparison sort
yields the same result on strings, embedded as insertion sort. -/
def sortStrings (l : List String) : List String :=
  l.insertionSort (· ≤ ·)

/-- `jwt.ResponsePermission`: bounded publish-response permission.
`maxMsgs` 0 means unlimited, `expires` is a duration (0 unbounded). -/
structure ResponsePermission where
  maxMsgs : Int
  expires : Int
  deriving DecidableEq

/-- The zero value of `jwt.ResponsePermission`. -/
def ResponsePermission.zero : ResponsePermission :=
  { maxMsgs := 0, expires := 0 }

/-- One direction of `jwt.Permissions`: allow and deny pattern lists. -/
structure Permission where
  allow : List String
  deny : List String
  deriving DecidableEq

/-- `jwt.Permissions` of a user claim. -/
structure Permissions where
  pub : Permission
  sub : Permission
  deriving DecidableEq

/-- A user claim, reduced to the fields `editUserClaim` touches. -/
structure UserClaims where
  notBefore : Int
  expires : Int
  perms : Permissions
  resp : Option ResponsePermission
  tags : List String
  deriving DecidableEq

/-! ## Response permissions and the add-user edit -/

/-- One entry of a detailed store report: an OK line or an error line. -/
inductive RItem where
  | ok (msg : String)
  | err (msg : String)
  deriving DecidableEq

/-- `Report.HasNoErrors`: no error entry in the report. -/
def Report.hasNoErrors (r : List RItem) : Bool :=
  r.all (fun it => match it with
    | RItem.ok _ => true
    | RItem.err _ => false)

def msgRemovedResp : String := "removed response permissions"
def msgSetMaxResponses : String := "set max responses"
def msgSetResponseTTL : String := "set response ttl"
def msgTTLParseError : String := "invalid duration"

/-- Model of the `--response-ttl` flag string: `none` stands for the empty
string, `some r` for a nonempty string whose parse by the external
`time.ParseDuration` yields `r` (`none` inside meaning a parse error). -/
def TTLFlag : Type := Option (Option Int)

instance : DecidableEq TTLFlag :=
  inferInstanceAs (DecidableEq (Option (Option Int)))

/-- `ResponsePermsParams`: response-permission flags of add/edit user.
`maxRespChanged` models whether the deprecated max-responses flag was
explicitly set on the command line. -/
structure ResponsePermsParams where
  respTTL : TTLFlag
  respMax : Int
  rmResp : Bool
  maxRespChanged : Bool
  deriving DecidableEq

/-- `ResponsePermsParams.parseTTL`: the empty string parses to duration 0,
otherwise the external duration parser decides. -/
def ResponsePermsParams.parseTTL (s : TTLFlag) : Option Int :=
  match s with
  | none => some 0
  | some r => r

/-- `ResponsePermsParams.Validate`: the TTL flag must parse. -/
def ResponsePermsParams.validate (p : ResponsePermsParams) : Except String Unit :=
  match ResponsePermsParams.parseTTL p.respTTL with
  | some _ => Except.ok ()
  | none => Except.error msgTTLParseError

/-- `ResponsePermsParams.Run`: if removal is requested, clear the response
permission and return; otherwise apply max-responses and TTL settings to
the user claim, creating the response permission on demand. -/
def ResponsePermsParams.run (p : ResponsePermsParams) (uc : UserClaims) :
    Except String (UserClaims × List RItem) :=
  if p.rmResp then
    Except.ok ({ uc with resp := none }, [RItem.ok msgRemovedResp])
  else
    let step1 : UserClaims × List RItem :=
      if p.maxRespChanged = true ∨ p.respMax ≠ 0 then
        ({ uc with resp := some { uc.resp.getD ResponsePermission.zero with maxMsgs := p.respMax } },
          [RItem.ok msgSetMaxResponses])
      else (uc, [])
    match p.respTTL with
    | none => Except.ok step1
    | some none => Except.error msgTTLParseError
    | some (some v) =>
      Except.ok
        ({ step1.1 with resp := some { step1.1.resp.getD ResponsePermission.zero with expires := v } },
          step1.2 ++ [RItem.ok msgSetResponseTTL])

/-- The flag fields of `AddUserParams` used by `editUserClaim`; the time
parameters are embedded as the changed start and expiry values, if any. -/
structure AddUserParams where
  allowPubs : List String
  allowPubsub : List String
  allowSubs : List String
  denyPubs : List String
  denyPubsub : List String
  denySubs : List String
  tags : List String
  startChanged : Option Int
  expiryChanged : Option Int
  respPerms : ResponsePermsParams
  deriving DecidableEq

/-- `AddUserParams.editUserClaim`: apply time changes, then the response
permission edit, then add-and-sort each of the four permission lists and
the tag list. -/
def AddUserParams.editUserClaim (p : AddUserParams) (uc : UserClaims) :
    Except String UserClaims :=
  let uc := match p.startChanged with
    | some v => { uc with notBefore := v }
    | none => uc
  let uc := match p.expiryChanged with
    | some v => { uc with expires := v }
    | none => uc
  match p.respPerms.run uc with
  | Except.error e => Except.error e
  | Except.ok (uc, _) =>
    let pa := sortStrings (StringList.add (StringList.add uc.perms.pub.allow p.allowPubs) p.allowPubsub)
    let pd := sortStrings (StringList.add (StringList.add uc.perms.pub.deny p.denyPubs) p.denyPubsub)
    let sa := sortStrings (StringList.add (StringList.add uc.perms.sub.allow p.allowSubs) p.allowPubsub)
    let sd := sortStrings (StringList.add (StringList.add uc.perms.sub.deny p.denySubs) p.denyPubsub)
    let tg := sortStrings (StringList.add uc.tags p.tags)
    Except.ok { uc with
      perms := { pub := { allow := pa, deny := pd }, sub := { allow := sa, deny := sd } },
      tags := tg }

/-! ## The add-user Run step -/

def msgGeneratedUserKey : String := "generated and stored user key"
def msgUnableSaveCreds : String := "unable to save creds"
def msgErrorStoringCreds : String := "error storing creds"
def msgGeneratedCreds : String := "generated user creds file"
def msgSkippedCreds : String := "skipped generating creds file - user private key is not available"
def msgAddedUser : String := "added user"

/-- Outcomes of the external sub-operations invoked by `AddUserParams.Run`:
key storage, claim generation (which persists the signed claim on
success), key availability, creds-file generation and storage. -/
structure AddUserRunEnv where
  storeKeysErr : Option String
  genClaimStatus : Option RItem
  genClaimErr : Option String
  generated : Bool
  hasPrivateKey : Bool
  genConfigErr : Option String
  storeCredsErr : Option String
  deriving DecidableEq

/-- Whether the signed user claim has been persisted. -/
structure UserStoreState where
  userClaimStored : Bool
  deriving DecidableEq

/-- Result of the add-user Run step: store state, structured report, and
the top-level error. -/
structure AddUserRunResult where
  store : UserStoreState
  report : Option (List RItem)
  topErr : Option String
  deriving DecidableEq

/-- `AddUserParams.Run`: store keys (aborting on failure), generate and
persist the claim, then assemble the detailed report; every failure after
key storage is itemized in the report and the function returns no
top-level error. -/
def AddUserParams.runOp (env : AddUserRunEnv) (s : UserStoreState) : AddUserRunResult :=
  match env.storeKeysErr with
  | some e => { store := s, report := none, topErr := some e }
  | none =>
    let s := if env.genClaimErr = none then { s with userClaimStored := true } else s
    let rs : List RItem := match env.genClaimStatus with
      | some it => [it]
      | none => []
    let r := rs
      ++ (match env.genClaimErr with
        | some e => [RItem.err e]
        | none => [])
      ++ rs
    let r := r ++ (if env.generated then [RItem.ok msgGeneratedUserKey] else [])
    let r := r ++
      (if env.hasPrivateKey then
        match env.genConfigErr with
        | some _ => [RItem.err msgUnableSaveCreds]
        | none =>
          match env.storeCredsErr with
          | some _ => [RItem.err msgErrorStoringCreds]
          | none => [RItem.ok msgGeneratedCreds]
      else [RItem.ok msgSkippedCreds])
    let r := r ++ (if Report.hasNoErrors r then [RItem.ok msgAddedUser] else [])
    { store := s, report := some r, topErr := none }

/-! ## The add-account command -/

/-- The observable effects the add-account command can perform, in program
order: acquiring the store handle, querying the store for a name, key
resolution, key generation, signing (`Encode`), writing a claim record,
and writing to the key store. -/
inductive Eff where
  | getStore
  | storeHas
  | resolveKey
  | keygen
  | sign
  | storeWrite
  | keyStoreWrite
  deriving DecidableEq

/-- The claim store, reduced to the names of the stored account claims. -/
structure NscStore where
  accounts : List String
  deriving DecidableEq

/-- `Store.Has(store.Accounts, name)`. -/
def NscStore.has (s : NscStore) (n : String) : Bool :=
  n ∈ s.accounts

/-- Modelled from the spec: `StoreClaim` atomically replaces the record
under the claim's name, creating it when absent. -/
def NscStore.storeClaim (s : NscStore) (n : String) : NscStore :=
  if n ∈ s.accounts then s else { accounts := n :: s.accounts }

def msgFlagsConflict : String := "specify one of public-key or generate-nkeys"
def msgAlreadyExists : String := "account already exists"
def msgNoOperatorKey : String := "specify the operator private key for signing"
def msgAccountKeyResolve : String := "error resolving account key"
def msgStoreUnavailable : String := "store unavailable"
def msgKeygenFailed : String := "error generating an account key"
def msgEncodeFailed : String := "encode failed"

/-- Outcomes of the external sub-operations of the add-account command:
store/context acquisition, operator key resolution, account key
resolution or generation, and claim encoding (signing). -/
structure AddAccountEnv where
  storeOk : Bool
  operatorKeyOk : Bool
  accountKeyOk : Bool
  keygenOk : Bool
  encodeOk : Bool
  deriving DecidableEq

/-- Flag fields of `AddAccountParams`. -/
structure AddAccountParams where
  Name : String
  accountKeyPath : String
  generate : Bool
  deriving DecidableEq

/-- `AddAccountParams.Validate`, with the list of effects it performed:
acquire the store, reject conflicting key flags, reject an existing
account name, resolve the operator key, then resolve or generate the
account key. -/
def AddAccountParams.validate (p : AddAccountParams) (env : AddAccountEnv)
    (s : NscStore) : Except String Unit × List Eff :=
  if ¬ env.storeOk then (Except.error msgStoreUnavailable, [])
  else if p.accountKeyPath ≠ "" ∧ p.generate then
    (Except.error msgFlagsConflict, [Eff.getStore])
  else if s.has p.Name then
    (Except.error msgAlreadyExists, [Eff.getStore, Eff.storeHas])
  else if ¬ env.operatorKeyOk then
    (Except.error msgNoOperatorKey, [Eff.getStore, Eff.storeHas, Eff.resolveKey])
  else if p.generate then
    if env.keygenOk then
      (Except.ok (), [Eff.getStore, Eff.storeHas, Eff.resolveKey, Eff.keygen])
    else
      (Except.error msgKeygenFailed, [Eff.getStore, Eff.storeHas, Eff.resolveKey, Eff.keygen])
  else if env.accountKeyOk then
    (Except.ok (), [Eff.getStore, Eff.storeHas, Eff.resolveKey, Eff.resolveKey])
  else
    (Except.error msgAccountKeyResolve, [Eff.getStore, Eff.storeHas, Eff.resolveKey, Eff.resolveKey])

/-- `AddAccountParams.Run`: encode (sign) the account claim with the
operator key and store it; when generating, also store the new key. -/
def AddAccountParams.runOp (p : AddAccountParams) (env : AddAccountEnv)
    (s : NscStore) : Except String Unit × NscStore × List Eff :=
  if ¬ env.encodeOk then (Except.error msgEncodeFailed, s, [Eff.sign])
  else
    (Except.ok (), s.storeClaim p.Name,
      [Eff.sign, Eff.storeWrite] ++ (if p.generate then [Eff.keyStoreWrite] else []))

instance {ε α : Type} [DecidableEq ε] [DecidableEq α] : DecidableEq (Except ε α) :=
  fun a b =>
    match a, b with
    | Except.ok x, Except.ok y =>
      if h : x = y then isTrue (by rw [h]) else isFalse (by intro hc; cases hc; exact h rfl)
    | Except.error x, Except.error y =>
      if h : x = y then isTrue (by rw [h]) else isFalse (by intro hc; cases hc; exact h rfl)
    | Except.ok _, Except.error _ => isFalse (by intro hc; cases hc)
    | Except.error _, Except.ok _ => isFalse (by intro hc; cases hc)

/-- Result of the whole add-account command. -/
structure CmdResult where
  res : Except String Unit
  store : NscStore
  trace : List Eff
  deriving DecidableEq

/-- The add-account command: `Validate`, then `Run` only if validation
succeeded. -/
def addAccountCmd (p : AddAccountParams) (env : AddAccountEnv) (s : NscStore) : CmdResult :=
  match p.validate env s with
  | (Except.error e, tr) => { res := Except.error e, store := s, trace := tr }
  | (Except.ok _, tr) =>
    match p.runOp env s with
    | (res, s2, tr2) => { res := res, store := s2, trace := tr ++ tr2 }

/-! ## The create-account command -/

/-- Role tag of an asymmetric key pair. -/
inductive KeyRole where
  | operator
  | account
  | user
  | cluster
  deriving DecidableEq

/-- A key pair, reduced to its role tag. -/
structure NKey where
  role : KeyRole
  deriving DecidableEq

/-- Modelled from the spec: `nkeys.IsValidPublicAccountKey` checks the
role prefix of the public key. -/
def IsValidPublicAccountKey (k : NKey) : Bool :=
  k.role = KeyRole.account

def slashStr : String := "/"
def dotStr : String := "."
def msgNotAccountKey : String := "private key is not an account private key"
def msgKeyLoadFailed : String := "error loading key"

/-- `filepath.Base` for slash-separated paths: the last nonempty path
element, with the empty path giving the dot and an all-slash path giving
the slash. -/
def basename (path : String) : String :=
  match ((path.splitOn slashStr).filter (fun s => ¬ s.isEmpty)).getLast? with
  | some s => s
  | none => if path.isEmpty then dotStr else slashStr

/-- Outcomes of the external sub-operations of create-account: the
`KeyPathFlag` global, the key loaded by `ResolveKeyFlag` (`none` on load
error), and the freshly generated account key. -/
structure CreateAccountEnv where
  keyPathFlag : String
  resolvedKey : Option NKey
  generatedKey : NKey
  deriving DecidableEq

/-- Fields of `CreateAccountParams`. -/
structure CreateAccountParams where
  name : String
  dir : String
  kp : Option NKey
  deriving DecidableEq

/-- `CreateAccountParams.Validate`: default the name from the directory,
then resolve the key: generate one when no key path is given, otherwise
load the flagged key and require it to be an account key. -/
def CreateAccountParams.validate (p : CreateAccountParams) (env : CreateAccountEnv) :
    Except String CreateAccountParams :=
  let p := if p.name = "" then { p with name := basename p.dir } else p
  match p.kp with
  | some _ => Except.ok p
  | none =>
    if env.keyPathFlag = "" then Except.ok { p with kp := some env.generatedKey }
    else
      match env.resolvedKey with
      | none => Except.error msgKeyLoadFailed
      | some k =>
        if IsValidPublicAccountKey k then Except.ok { p with kp := some k }
        else Except.error msgNotAccountKey

/-- The filesystem state create-account touches: stored key files and
created account store directories. -/
structure FileSys where
  keyFiles : List String
  storeDirs : List String
  deriving DecidableEq

/-- `CreateAccountParams.Run`: when the key was generated, store its seed
as a key file, then create the account store directory. -/
def CreateAccountParams.runOp (p : CreateAccountParams) (env : CreateAccountEnv)
    (fs : FileSys) : Except String Unit × FileSys :=
  let fs := if env.keyPathFlag = "" then { fs with keyFiles := p.name :: fs.keyFiles } else fs
  (Except.ok (), { fs with storeDirs := p.dir :: fs.storeDirs })

/-- The create-account command: `Validate`, then `Run` only if validation
succeeded. -/
def createAccountCmd (p : CreateAccountParams) (env : CreateAccountEnv)
    (fs : FileSys) : Except String Unit × FileSys :=
  match p.validate env with
  | Except.error e => (Except.error e, fs)
  | Except.ok p2 => p2.runOp env fs

/-! ## Concrete scenario data, mirroring the repository's tests -/

/-- An empty permission direction. -/
def Permission.empty : Permission := { allow := [], deny := [] }

/-- A user claim with no permissions, tags, or response permission. -/
def ucEmpty : UserClaims :=
  { notBefore := 0, expires := 0, perms := { pub := Permission.empty, sub := Permission.empty }, resp := none, tags := [] }

/-- A user claim carrying a response permission. -/
def ucWithResp : UserClaims :=
  { ucEmpty with resp := some { maxMsgs := 3, expires := 9 } }

/-- Add-user flags with nothing set. -/
def addUserNoFlags : AddUserParams :=
  { allowPubs := [], allowPubsub := [], allowSubs := [], denyPubs := [], denyPubsub := [], denySubs := [], tags := [], startChanged := none, expiryChanged := none, respPerms := { respTTL := none, respMax := 0, rmResp := false, maxRespChanged := false } }

/-- Response flags requesting removal together with max and TTL settings. -/
def respRemoveAndSet : ResponsePermsParams :=
  { respTTL := some (some 5000000000), respMax := 7, rmResp := true, maxRespChanged := true }

/-- A stream export of subject pattern foo followed by the trailing wildcard. -/
def expFooStream : Export :=
  { subject := "foo.>", kind := ExportKind.stream, tokenReq := false, revocations := [] }

/-- A service export of subject bar. -/
def expBarService : Export :=
  { subject := "bar", kind := ExportKind.service, tokenReq := false, revocations := [] }

/-- Account A of the revoke tests. -/
def acctA : Account := { name := "A", exports := [expFooStream] }

/-- Account B of the revoke tests. -/
def acctB : Account := { name := "B", exports := [expFooStream, expBarService] }

/-- The environment of a successful add-user run whose creds write fails. -/
def credsFailEnv : AddUserRunEnv :=
  { storeKeysErr := none, genClaimStatus := some (RItem.ok (r"stored claim")), genClaimErr := none, generated := false, hasPrivateKey := true, genConfigErr := none, storeCredsErr := some (r"disk full") }

/-- An add-account environment in which every external step succeeds. -/
def allOkEnv : AddAccountEnv :=
  { storeOk := true, operatorKeyOk := true, accountKeyOk := true, keygenOk := true, encodeOk := true }

/-- A create-account environment whose key flag loads a user key. -/
def userKeyEnv : CreateAccountEnv :=
  { keyPathFlag := "/keys/user.nk", resolvedKey := some { role := KeyRole.user }, generatedKey := { role := KeyRole.account } }

/-! ## Theorems about revocation -/

/-- Claim C1 counterexample: with a wildcard entry of cutoff 2000 already
present, revoking target X with cutoff 1000 leaves the query at issue
time 1500 true although 1500 exceeds the cutoff 1000, so the claim's
false-above-cutoff half fails as universally stated. -/
theorem c1_claim_counterexample :
    ((RevocationList.revoke (RevocationList.revoke [] wildcard 2000) (r"X") 1000)).isRevokedAt (r"X") 1500
      = true ∧ (1000 : Int) < 1500 := by
  constructor
  · decide
  · decide

/-- Claim C1 (amended): after `Revoke(T, C)`, `IsRevokedAt(T, t)` is true
for every issue time `t ≤ C`; and it is false for every `t > C` provided
no wildcard entry with a cutoff above `C` interferes (either `T` is the
wildcard itself, or every wildcard cutoff in the list is at most `C`). -/
theorem c1_revoke_cutoff_query (rl : RevocationList) (T : String) (C t : Int) :
    (t ≤ C → (rl.revoke T C).isRevokedAt T t = true) ∧
    ((T = wildcard ∨ ∀ c, rl.lookup wildcard = some c → c ≤ C) →
      C < t → (rl.revoke T C).isRevokedAt T t = false) := by
  have h1 : (rl.revoke T C).lookup T = some C := RevocationList.lookup_revoke_self rl T C
  constructor
  · intro h
    simp [RevocationList.isRevokedAt, h1, h]
  · intro hw hlt
    by_cases hT : T = wildcard
    · subst hT
      simp [RevocationList.isRevokedAt, h1]
      omega
    · have h2 : (rl.revoke T C).lookup wildcard = rl.lookup wildcard :=
        RevocationList.lookup_revoke_other rl T wildcard C (Ne.symm hT)
      rcases hw with hw | hw
      · exact absurd hw hT
      · simp only [RevocationList.isRevokedAt, h1, h2]
        cases hx : rl.lookup wildcard with
        | none => simp; omega
        | some c =>
          have := hw c hx
          simp
          omega

/-- Witness for claim C1 at the spec's scenario: cutoff 1000, queries at
999 and 1001 on a fresh export. -/
theorem c1_revoke_cutoff_query_witness :
    (RevocationList.revoke [] (r"ACCT1") 1000).isRevokedAt (r"ACCT1") 999 = true ∧
    (RevocationList.revoke [] (r"ACCT1") 1000).isRevokedAt (r"ACCT1") 1001 = false :=
  ⟨(c1_revoke_cutoff_query [] (r"ACCT1") 1000 999).1 (by decide),
   (c1_revoke_cutoff_query [] (r"ACCT1") 1000 1001).2
     (Or.inr (fun c h => by simp [RevocationList.lookup] at h)) (by decide)⟩

/-- Claim C2: revoking without an explicit cutoff stores the wall-clock
time, a nonnegative epoch second; consequently the query at Unix(0,0) is
true. -/
theorem c2_revoke_default_now (rl : RevocationList) (T : String) (now : Int)
    (h : 0 ≤ now) : (rl.revoke T now).isRevokedAt T 0 = true := by
  simp [RevocationList.isRevokedAt, RevocationList.lookup_revoke_self, h]

/-- Witness for claim C2 at a concrete wall-clock time. -/
theorem c2_revoke_default_now_witness :
    (RevocationList.revoke [] (r"ACCT1") 1700000000).isRevokedAt (r"ACCT1") 0 = true :=
  c2_revoke_default_now [] (r"ACCT1") 1700000000 (by decide)

/-- Claim C9: a revoke-activation is scoped to one export of one account:
the command maps the per-account edit over the store; accounts with a
different name are unchanged; within the selected account every
non-matching export is unchanged; and, starting from empty revocation
lists, the matching export ends with exactly the one new entry. -/
theorem c9_revoke_activation_frame (accounts : List Account)
    (acctName subject : String) (kind : ExportKind) (target : String) (cutoff : Int)
    (hemp : ∀ a ∈ accounts, ∀ e ∈ a.exports, e.revocations = ([] : RevocationList)) :
    revokeActivationOn accounts acctName subject kind target cutoff
      = accounts.map (Account.revokeActivation acctName subject kind target cutoff) ∧
    (∀ a ∈ accounts, a.name ≠ acctName →
      Account.revokeActivation acctName subject kind target cutoff a = a) ∧
    (∀ a ∈ accounts, ∀ e ∈ a.exports,
      (¬ (e.subject = subject ∧ e.kind = kind) →
        Export.revokeIfMatch subject kind target cutoff e = e) ∧
      ((e.subject = subject ∧ e.kind = kind) →
        (Export.revokeIfMatch subject kind target cutoff e).revocations
          = [(target, cutoff)])) := by
  refine ⟨rfl, ?_, ?_⟩
  · intro a _ hne
    simp [Account.revokeActivation, hne]
  · intro a ha e he
    constructor
    · intro hm
      simp [Export.revokeIfMatch, hm]
    · intro hm
      have hrv := hemp a ha e he
      simp [Export.revokeIfMatch, hm, hrv, RevocationList.revoke]

/-! ## Theorems about permission editing -/

theorem StringList.add_nil (l : List String) : StringList.add l [] = l := rfl

theorem sortStrings_sorted (l : List String) : List.Sorted (· ≤ ·) (sortStrings l) :=
  List.sorted_insertionSort _ l

/-- Claim C3: adding subject patterns with the combined pub+sub flag gives
exactly the same edited user claim — in particular the same membership of
the publish and subscribe allow lists — as adding them with the pub-only
and the sub-only flags. -/
theorem c3_pubsub_flag_equiv (p : AddUserParams) (uc : UserClaims) (ps : List String) :
    AddUserParams.editUserClaim { p with allowPubs := [], allowSubs := [], allowPubsub := ps } uc
      = AddUserParams.editUserClaim { p with allowPubs := ps, allowSubs := ps, allowPubsub := [] } uc := by
  simp only [AddUserParams.editUserClaim, StringList.add_nil]

/-- Claim C4: `StringList.Add` is idempotent — adding an already-present
pattern leaves the list unchanged — and after `editUserClaim` each of the
four allow/deny pub/sub lists is sorted. -/
theorem c4_add_idem_sorted :
    (∀ (l : List String) (x : String), x ∈ l → StringList.add l [x] = l) ∧
    (∀ (p : AddUserParams) (uc uc1 : UserClaims),
      AddUserParams.editUserClaim p uc = Except.ok uc1 →
        List.Sorted (· ≤ ·) uc1.perms.pub.allow ∧
        List.Sorted (· ≤ ·) uc1.perms.pub.deny ∧
        List.Sorted (· ≤ ·) uc1.perms.sub.allow ∧
        List.Sorted (· ≤ ·) uc1.perms.sub.deny) := by
  constructor
  · intro l x hx
    simp [StringList.add, hx]
  · intro p uc uc1 h
    simp only [AddUserParams.editUserClaim] at h
    cases hr : ResponsePermsParams.run p.respPerms
        (match p.expiryChanged with
          | some v =>
            { (match p.startChanged with
                | some v => { uc with notBefore := v }
                | none => uc) with expires := v }
          | none =>
            match p.startChanged with
            | some v => { uc with notBefore := v }
            | none => uc) with
    | error e => rw [hr] at h; cases h
    | ok x =>
      rw [hr] at h
      cases h
      exact ⟨sortStrings_sorted _, sortStrings_sorted _, sortStrings_sorted _,
        sortStrings_sorted _⟩

/-- Witness for claim C4: idempotence at a present pattern and sortedness
of the publish allow list of a concrete edit. -/
theorem c4_add_idem_sorted_witness :
    StringList.add [(r"a")] [(r"a")] = [(r"a")] ∧
    List.Sorted (· ≤ ·) ucEmpty.perms.pub.allow :=
  ⟨c4_add_idem_sorted.1 [(r"a")] (r"a") (by decide),
   (c4_add_idem_sorted.2 addUserNoFlags ucEmpty ucEmpty (by decide)).1⟩

/-- Claim C7: when removal of the response permission is requested, the
edit clears it and returns at once, so no max-messages or TTL setting
takes effect in that same edit. -/
theorem c7_remove_response_exclusive (p : ResponsePermsParams) (uc : UserClaims)
    (h : p.rmResp = true) :
    p.run uc = Except.ok ({ uc with resp := none }, [RItem.ok msgRemovedResp]) := by
  simp [ResponsePermsParams.run, h]

/-- Witness for claim C7: removal requested together with a max-messages
and a TTL setting still only clears the permission. -/
theorem c7_remove_response_exclusive_witness :
    ResponsePermsParams.run respRemoveAndSet ucWithResp
      = Except.ok ({ ucWithResp with resp := none }, [RItem.ok msgRemovedResp]) :=
  c7_remove_response_exclusive respRemoveAndSet ucWithResp rfl

/-- Claim C6: when the signed claim succeeds but writing the creds file
fails, the add-user Run step returns no top-level error, itemizes the
failure in the structured report, and leaves the stored claim in place. -/
theorem c6_creds_failure_itemized (env : AddUserRunEnv) (s : UserStoreState)
    (h1 : env.storeKeysErr = none) (h2 : env.genClaimErr = none)
    (h3 : env.hasPrivateKey = true) (h4 : env.genConfigErr = none)
    (h5 : env.storeCredsErr.isSome = true) :
    (AddUserParams.runOp env s).topErr = none ∧
    RItem.err msgErrorStoringCreds ∈ ((AddUserParams.runOp env s).report.getD []) ∧
    (AddUserParams.runOp env s).store.userClaimStored = true := by
  obtain ⟨e, he⟩ := Option.isSome_iff_exists.mp h5
  simp [AddUserParams.runOp, h1, h2, h3, h4, he]

/-- Witness for claim C6 at a concrete run whose creds storage fails. -/
theorem c6_creds_failure_itemized_witness :
    (AddUserParams.runOp credsFailEnv { userClaimStored := false }).topErr = none ∧
    RItem.err msgErrorStoringCreds ∈
      ((AddUserParams.runOp credsFailEnv { userClaimStored := false }).report.getD []) ∧
    (AddUserParams.runOp credsFailEnv { userClaimStored := false }).store.userClaimStored
      = true :=
  c6_creds_failure_itemized credsFailEnv { userClaimStored := false } rfl rfl rfl rfl rfl

/-! ## Theorems about the account commands -/

/-- Claim C5: adding an account under an existing name fails with the
already-exists error before any signing or store write, and the store
still holds exactly one claim under that name. -/
theorem c5_add_existing_account (p : AddAccountParams) (env : AddAccountEnv)
    (s : NscStore) (hstore : env.storeOk = true)
    (hflags : ¬ (p.accountKeyPath ≠ "" ∧ p.generate))
    (hcount : s.accounts.count p.Name = 1) :
    (addAccountCmd p env s).res = Except.error msgAlreadyExists ∧
    (addAccountCmd p env s).store = s ∧
    Eff.sign ∉ (addAccountCmd p env s).trace ∧
    Eff.storeWrite ∉ (addAccountCmd p env s).trace ∧
    (addAccountCmd p env s).store.accounts.count p.Name = 1 := by
  have hmem : p.Name ∈ s.accounts := by
    have hpos : 0 < s.accounts.count p.Name := by omega
    exact List.count_pos_iff.mp hpos
  have hhas : s.has p.Name = true := by simp [NscStore.has, hmem]
  simp [addAccountCmd, AddAccountParams.validate, hstore, hflags, hhas, hcount]

/-- Witness for claim C5: adding account A twice. -/
theorem c5_add_existing_account_witness :
    (addAccountCmd { Name := (r"A"), accountKeyPath := "", generate := false } allOkEnv
      { accounts := [(r"A")] }).res = Except.error msgAlreadyExists ∧
    (addAccountCmd { Name := (r"A"), accountKeyPath := "", generate := false } allOkEnv
      { accounts := [(r"A")] }).store.accounts.count (r"A") = 1 := by
  have h := c5_add_existing_account
    { Name := (r"A"), accountKeyPath := "", generate := false } allOkEnv
    { accounts := [(r"A")] } rfl (by decide) (by decide)
  exact ⟨h.1, h.2.2.2.2⟩

/-- Claim C10: supplying both an explicit public key and the generate
option makes validation fail before any key resolution, key generation,
signing, or store access, leaving the store unchanged. -/
theorem c10_flag_conflict_precedence (p : AddAccountParams) (env : AddAccountEnv)
    (s : NscStore) (hk : p.accountKeyPath ≠ "") (hg : p.generate = true)
    (hstore : env.storeOk = true) :
    (addAccountCmd p env s).res = Except.error msgFlagsConflict ∧
    (addAccountCmd p env s).store = s ∧
    Eff.resolveKey ∉ (addAccountCmd p env s).trace ∧
    Eff.keygen ∉ (addAccountCmd p env s).trace ∧
    Eff.sign ∉ (addAccountCmd p env s).trace ∧
    Eff.storeHas ∉ (addAccountCmd p env s).trace ∧
    Eff.storeWrite ∉ (addAccountCmd p env s).trace := by
  simp [addAccountCmd, AddAccountParams.validate, hstore, hk, hg]

/-- Witness for claim C10 at concrete conflicting flags. -/
theorem c10_flag_conflict_precedence_witness :
    (addAccountCmd { Name := (r"A"), accountKeyPath := (r"AKEY"), generate := true } allOkEnv
      { accounts := [] }).res = Except.error msgFlagsConflict ∧
    (addAccountCmd { Name := (r"A"), accountKeyPath := (r"AKEY"), generate := true } allOkEnv
      { accounts := [] }).store = { accounts := [] } := by
  have h := c10_flag_conflict_precedence
    { Name := (r"A"), accountKeyPath := (r"AKEY"), generate := true } allOkEnv
    { accounts := [] } (by decide) rfl rfl
  exact ⟨h.1, h.2.1⟩

/-- Claim C8: when an explicit key path is supplied and the loaded key is
not an account key, create-account validation fails with the key-mismatch
error and the command creates nothing. -/
theorem c8_key_mismatch_no_account (p : CreateAccountParams) (env : CreateAccountEnv)
    (fs : FileSys) (k : NKey) (hkp : p.kp = none) (hflag : env.keyPathFlag ≠ "")
    (hres : env.resolvedKey = some k) (hrole : k.role ≠ KeyRole.account) :
    p.validate env = Except.error msgNotAccountKey ∧
    createAccountCmd p env fs = (Except.error msgNotAccountKey, fs) := by
  have hval : p.validate env = Except.error msgNotAccountKey := by
    by_cases hn : p.name = ""
    · simp [CreateAccountParams.validate, hn, hkp, hflag, hres,
        IsValidPublicAccountKey, hrole]
    · simp [CreateAccountParams.validate, hn, hkp, hflag, hres,
        IsValidPublicAccountKey, hrole]
  exact ⟨hval, by simp [createAccountCmd, hval]⟩

/-- Witness for claim C8: a user key supplied where an account key is
required. -/
theorem c8_key_mismatch_no_account_witness :
    CreateAccountParams.validate { name := (r"A"), dir := (r"/tmp/a"), kp := none } userKeyEnv
      = Except.error msgNotAccountKey ∧
    createAccountCmd { name := (r"A"), dir := (r"/tmp/a"), kp := none } userKeyEnv
      { keyFiles := [], storeDirs := [] }
      = (Except.error msgNotAccountKey, { keyFiles := [], storeDirs := [] }) :=
  c8_key_mismatch_no_account { name := (r"A"), dir := (r"/tmp/a"), kp := none } userKeyEnv
    { keyFiles := [], storeDirs := [] } { role := KeyRole.user } rfl (by decide) rfl (by decide)

/-- Witness for claim C9 on the interactive revoke test scenario: two
accounts with a stream and a service export each, revoking the stream of
account B. -/
theorem c9_revoke_activation_frame_witness :
    (Account.revokeActivation (r"B") (r"foo.>") ExportKind.stream (r"PUB") 1000 acctA
      = acctA) ∧
    (Export.revokeIfMatch (r"foo.>") ExportKind.stream (r"PUB") 1000 expBarService
      = expBarService) ∧
    ((Export.revokeIfMatch (r"foo.>") ExportKind.stream (r"PUB") 1000 expFooStream).revocations
      = [((r"PUB"), 1000)]) := by
  have h := c9_revoke_activation_frame [acctA, acctB]
    (r"B") (r"foo.>") ExportKind.stream (r"PUB") 1000 (by decide)
  refine ⟨?_, ?_, ?_⟩
  · exact h.2.1 acctA (by decide) (by decide)
  · exact (h.2.2 acctB (by decide) expBarService (by decide)).1 (by decide)
  · exact (h.2.2 acctB (by decide) expFooStream (by decide)).2 (by decide)

end Nsc
